import Mathlib

/-!
# Verification of the `maxx` MATLAB static-analyzer core

A shallow embedding, in Lean 4, of the parts of the `maxx` repository that the
frozen claims C1..C10 are about:

* `src/maxx/enums.py` — the `Kind` enumeration (Python `Enum` semantics,
  including member aliasing on duplicate values);
* `src/maxx/objects.py` — `Object.resolve`, `Class._mro` / `mro` /
  `resolved_bases`, the `Alias` laziness protocol;
* `src/maxx/collection.py` — `_PathGlobber`, `_PathResolver`,
  `PathsCollection.addpath` / `rm_path` / `__getitem__`;
* `src/maxx/treesitter.py` — `FileParser._parse_class` (method assembly,
  implicit-instance stripping, getter/setter binding),
  `FileParser._comment_docstring` and the `_dedent` helper.

Python-level conventions used throughout the embedding:

* filesystem paths are lists of components (mirroring `pathlib.Path.parts`);
* machine-level behaviour of exceptions is modelled with `Except PyErr`;
  each `PyErr` constructor mirrors one of the Python exception classes
  actually raised by the code (`ValueError`, `KeyError`, `IndexError`,
  `LookupError`, builtin `FileNotFoundError`), plus the project's own
  exception classes.  The project exception module `maxx/exceptions.py`
  itself is not in the provided sources; its sibling `malt/exceptions.py`
  (which `maxx` mirrors) defines `CyclicAliasError`, `FilePathError` and
  `NameResolutionError` and no others; the spec's error taxonomy in addition
  names an `InheritanceCycle` kind, which is modelled from the spec below.
* Python `dict`s are insertion-ordered association lists; writing to an
  existing key keeps its position, writing to a fresh key appends.
-/

deriving instance DecidableEq for Except

namespace Maxx

/-- Python exception classes as raised by the embedded code.  Constructors
`valueError`, `keyError`, `indexError`, `lookupError` and `fileNotFound`
mirror the Python builtins; `cyclicAlias`, `filePath` and `nameResolution`
mirror the classes of the project exception module (present in the sources
as `malt/exceptions.py`).  `inheritanceCycle` is modelled from the spec:
the spec's error taxonomy (§7) lists an `InheritanceCycle` kind
("C3 linearization detects a repeated class path"), but no such exception
class exists anywhere in the sources; it is included here so that the claim
"a cycle raises `InheritanceCycle`" can be stated and compared with what the
code actually raises. -/
inductive PyErr where
  | valueError (msg : String)
  | keyError (msg : String)
  | indexError (msg : String)
  | lookupError
  | fileNotFound (msg : String)
  | cyclicAlias (chain : List String)
  | filePath (name : String)
  | nameResolution (msg : String)
  | inheritanceCycle (chain : String)
  deriving Repr, DecidableEq

/-! ## `maxx/enums.py` — the `Kind` enumeration

```python
class Kind(str, Enum):
    FOLDER = "folder"
    NAMESPACE = "namespace"
    CLASS = "class"
    ENUMERATION = "class"
    FUNCTION = "function"
    SCRIPT = "script"
    PROPERTY = "property"
    ALIAS = "alias"
    BUILTIN = "builtin"
```

In a Python `Enum`, a member whose value duplicates an earlier member's value
does not become a new member: it becomes an *alias* of the earlier member
(`Kind.ENUMERATION is Kind.CLASS` evaluates to `True`).  Since
`ENUMERATION = "class"` repeats the value of `CLASS = "class"`, the Python
enum `Kind` has only eight distinct members, and `Kind.ENUMERATION` is the
very same member as `Kind.CLASS`.  The embedding therefore has one
constructor per *distinct* member, and `Kind.ENUMERATION` is a definition
equal to `Kind.CLASS`, exactly as in Python. -/

inductive Kind where
  | FOLDER
  | NAMESPACE
  | CLASS
  | FUNCTION
  | SCRIPT
  | PROPERTY
  | ALIAS
  | BUILTIN
  deriving Repr, DecidableEq

/-- The string value of each (distinct) enum member. -/
def Kind.value : Kind → String
  | .FOLDER => "folder"
  | .NAMESPACE => "namespace"
  | .CLASS => "class"
  | .FUNCTION => "function"
  | .SCRIPT => "script"
  | .PROPERTY => "property"
  | .ALIAS => "alias"
  | .BUILTIN => "builtin"

/-- `Kind.ENUMERATION`: because its declared value `"class"` duplicates the
value of `Kind.CLASS`, Python's `Enum` machinery makes it an alias of
`Kind.CLASS` rather than a distinct member. -/
def Kind.ENUMERATION : Kind := Kind.CLASS

/-- `Enumeration.kind` (objects.py line 846: `kind: Kind = Kind.ENUMERATION`). -/
def enumerationKind : Kind := Kind.ENUMERATION

/-- `Object.is_class` (objects.py lines 334-337):
`self.kind is Kind.CLASS`, applied to an object of the given kind. -/
def isClassKind (k : Kind) : Bool := k == Kind.CLASS

/-! ## `Object.resolve` (objects.py lines 493-518)

```python
def resolve(self, name: str) -> str:
    # Name is a member this object.
    if name in self.members:
        member = self.members[name]
        if isinstance(member, Alias):
            return member.target_path
        return member.path
    # Name unknown and no more parent scope, could be a built-in.
    if self.parent is None or not self.parent.is_namespace or not self.parent.is_folder:
        raise NameResolutionError(f"{name} could not be resolved in the scope of {self.path}")
    # Recurse in parent.
    return self.parent.resolve(name)
```

For `resolve` an object needs its `name`, its `kind` (for the
`is_namespace` / `is_folder` tests on the parent and for `path`), its
`members` (for which only each member's alias-ness, `path` and
`target_path` matter) and its `parent`. -/

/-- A member as seen by `resolve`: either an `Alias` (resolve returns its
`target_path`) or a plain object (resolve returns its `path`). -/
structure RMember where
  isAlias : Bool
  path : String
  targetPath : String
  deriving Repr, DecidableEq

/-- An object with its parent chain, as traversed by `Object.resolve`. -/
inductive RObj where
  | mk (name : String) (kind : Kind) (members : List (String × RMember))
      (parent : Option RObj)

def RObj.name : RObj → String | .mk n _ _ _ => n

def RObj.kind : RObj → Kind | .mk _ k _ _ => k

def RObj.members : RObj → List (String × RMember) | .mk _ _ m _ => m

def RObj.parent : RObj → Option RObj | .mk _ _ _ p => p

/-- `Object.is_namespace` (objects.py 324-327): `self.kind is Kind.NAMESPACE`.
(The `Namespace` subclass overrides it to `True`; for a namespace object the
kind test gives the same answer.) -/
def RObj.is_namespace (o : RObj) : Bool := o.kind == Kind.NAMESPACE

/-- `Object.is_folder` (objects.py 329-332): `self.kind is Kind.FOLDER`. -/
def RObj.is_folder (o : RObj) : Bool := o.kind == Kind.FOLDER

/-- `Object.canonical_path` (objects.py 414-424): the dot-joined chain of
names up the parent chain. -/
def RObj.canonical_path : RObj → String
  | .mk n _ _ none => n
  | .mk n _ _ (some p) => p.canonical_path ++ "." ++ n

/-- `Object.path` (objects.py 404-412) is `canonical_path`; `Namespace.path`
(objects.py 718-726) prefixes a `+`. -/
def RObj.pathStr (o : RObj) : String :=
  if o.kind == Kind.NAMESPACE then "+" ++ o.canonical_path else o.canonical_path

/-- `Object.resolve` (objects.py 493-518), translated branch by branch.
Note the second branch's condition
`self.parent is None or not self.parent.is_namespace or not self.parent.is_folder`
is translated literally (a disjunction of the three tests). -/
def RObj.resolve : RObj → String → Except PyErr String
  | .mk n k mems par, name =>
    match mems.lookup name with
    | some member => if member.isAlias then .ok member.targetPath else .ok member.path
    | none =>
      match par with
      | none =>
        .error (.nameResolution
          (name ++ " could not be resolved in the scope of " ++ (RObj.mk n k mems none).pathStr))
      | some parent =>
        if !parent.is_namespace || !parent.is_folder then
          .error (.nameResolution
            (name ++ " could not be resolved in the scope of "
              ++ (RObj.mk n k mems (some parent)).pathStr))
        else
          parent.resolve name

/-! ## `FileParser._comment_docstring` (treesitter.py lines 710-814) and
`_dedent` (treesitter.py lines 245-257)

The docstring extractor receives the decoded text of the captured comment
nodes split into lines (`treesitter.py` lines 742-752; the preceding
gap-pruning step, lines 733-738, keeps every node when consecutive nodes are
at most one row apart, which is the case for a contiguous comment block).
The loop body (lines 757-807) is translated below; the final value of the
produced `Docstring` is `"\n".join(docstring)` (line 810). -/

/-- Python `s.lstrip()`: drop leading whitespace characters. -/
def pyLStrip (s : String) : String := ⟨s.data.dropWhile Char.isWhitespace⟩

/-- Whether `pat` occurs as a contiguous sublist of `text`. -/
def subOccurs (pat : List Char) : List Char → Bool
  | [] => pat.isPrefixOf []
  | c :: cs => pat.isPrefixOf (c :: cs) || subOccurs pat cs

/-- Python `"sub" in s` substring test. -/
def strContains (s pat : String) : Bool := subOccurs pat.data s.data

/-- The text before the first occurrence of `pat` (`s[:s.index(pat)]`). -/
def beforeSub (pat : List Char) : List Char → List Char
  | [] => []
  | c :: cs => if pat.isPrefixOf (c :: cs) then [] else c :: beforeSub pat cs

/-- Python `s[:s.index(pat)]`. -/
def strBefore (s pat : String) : String := ⟨beforeSub pat.data s.data⟩

/-- Python `s.startswith(pat)` / `s[:len(pat)] == pat`. -/
def strStartsWith (s pat : String) : Bool := pat.data.isPrefixOf s.data

/-- Python `s[n:]` (character-level drop). -/
def strDrop (s : String) (n : Nat) : String := ⟨s.data.drop n⟩

/-- Python `"\n".join(lines)`. -/
def joinNL : List String → String
  | [] => ""
  | [l] => l
  | l :: ls => l ++ "\n" ++ joinNL ls

/-- The characters `[ \t]` used by `textwrap.dedent`'s margin computation. -/
def isSpaceTab (c : Char) : Bool := c == ' ' || c == '\t'

/-- The `[ \t]*` leading run of a line (`_leading_whitespace_re` capture). -/
def pyIndent (s : String) : String := ⟨s.data.takeWhile isSpaceTab⟩

/-- Longest common prefix of two character lists. -/
def lcpChars : List Char → List Char → List Char
  | a :: as, b :: bs => if a = b then a :: lcpChars as bs else []
  | _, _ => []

/-- Longest common prefix of two strings (the net effect of
`textwrap.dedent`'s margin update: keep the startswith-compatible part). -/
def lcpStr (a b : String) : String := String.mk (lcpChars a.data b.data)

/-- `textwrap.dedent` on a list of lines (the `_dedent` helper joins with
`"\n"`, dedents, and splits again, so the list-level behaviour is:
lines consisting solely of `[ \t]` are normalized to empty, the margin is
the longest common `[ \t]` prefix of the remaining non-empty lines, and the
margin is removed from every line that starts with it). -/
def pyDedent (lines : List String) : List String :=
  let norm := lines.map (fun l => if l ≠ "" && l.data.all isSpaceTab then "" else l)
  let indents := (norm.filter (fun l => l ≠ "")).map pyIndent
  let margin := match indents with
    | [] => ""
    | i :: is => is.foldl lcpStr i
  if margin = "" then norm
  else norm.map (fun l =>
    if margin.data.isPrefixOf l.data then strDrop l margin.data.length else l)

/-- The pragma lines skipped entirely (treesitter.py lines 764-773). -/
def pragmaLines : List String :=
  ["%#codegen", "%#eml", "%#external", "%#exclude", "%#function", "%#ok", "%#mex"]

/-- The inner `while "%}" not in line` loop of the `%{` block handler
(treesitter.py lines 786-797).  Returns the collected `comment_block` and
the unconsumed lines.  When the closing `%}` is found the loop's `else`
clause appends the text before it if non-empty; when the iterator is
exhausted the loop `break`s with the last line already appended. -/
def blockScan (line : String) (rest : List String) (acc : List String) :
    List String × List String :=
  if strContains line "%\x7d" then
    let lastLine := strBefore line "%\x7d"
    (acc ++ (if lastLine ≠ "" then [lastLine] else []), rest)
  else
    match rest with
    | [] => (acc ++ [line], [])
    | r :: rs => blockScan r rs (acc ++ [line])

/-- One pass of the `while True` loop of `_comment_docstring`
(treesitter.py lines 757-807), fuelled by the number of remaining lines
(each outer iteration consumes at least the head line, so
`lines.length + 1` fuel always suffices). -/
def docLoop : Nat → List String → List String → List String →
    Except PyErr (List String)
  | _, [], doc, unc =>
    .ok (doc ++ (if unc ≠ [] then pyDedent unc else []))
  | 0, _ :: _, _, _ => .error (.valueError "fuel exhausted")
  | fuel + 1, l :: rest, doc, unc =>
    let line := pyLStrip l
    if pragmaLines.contains line then
      docLoop fuel rest doc unc
    else if strContains line "--8<--" then
      docLoop fuel rest doc unc
    else if strStartsWith line "%\x7b" || strStartsWith line "%%" then
      let doc := doc ++ (if unc ≠ [] then pyDedent unc else [])
      if strStartsWith line "%%" then
        docLoop fuel rest (doc ++ [pyLStrip (strDrop line 2)]) []
      else
        let scanned := blockScan (strDrop line 2) rest []
        match scanned.1 with
        | [] => .error (.indexError "list index out of range")
        | b0 :: btail => docLoop fuel scanned.2 (doc ++ [b0] ++ pyDedent btail) []
    else
      match line.data with
      | [] => .error (.indexError "string index out of range")
      | c :: _ =>
        if c = '%' then
          docLoop fuel rest doc (unc ++ [strDrop line 1])
        else
          .error .lookupError

/-- `_comment_docstring` applied to the decoded comment lines: the text of
the produced `Docstring` is `"\n".join(docstring)` (treesitter.py 809-814). -/
def commentDocstring (lines : List String) : Except PyErr String :=
  (docLoop (lines.length + 1) lines [] []).map joinNL

/-! ## `Class._mro` / `Class.mro` (objects.py lines 786-816)

```python
@property
def resolved_bases(self) -> list[Object]:
    resolved_bases = []
    for base in self.bases:
        try:
            resolved_base = self.paths_collection.get_member(base)
            if isinstance(resolved_base, Alias):
                resolved_base = resolved_base.target
        except (CyclicAliasError, KeyError):
            logger.debug(...)
        else:
            resolved_bases.append(resolved_base)
    return resolved_bases

def _mro(self, seen: tuple[str, ...] = ()) -> list[Class]:
    seen = (*seen, self.path)
    bases: list[Class] = [base for base in self.resolved_bases if isinstance(base, Class)]
    if not bases:
        return [self]
    for base in bases:
        if base.path in seen:
            cycle: str = " -> ".join(seen) + f" -> {base.path}"
            raise ValueError(
                f"Cannot compute C3 linearization, inheritance cycle detected: {cycle}")
    return [self, *c3linear_merge(*[base._mro(seen) for base in bases], bases)]

def mro(self) -> list[Class]:
    return self._mro()[1:]  # Remove self.
```

For the MRO the collection is consulted only through
`get_member(base)`, which for a resolvable top-level class returns that
class object (and `None` or an exception otherwise; `None` and non-class
results are then discarded by the `isinstance(base, Class)` filter).  The
embedding therefore works over a table mapping base-name strings to
classes.  The scenario classes are top level, so each class's `path` equals
its `name`. -/

/-- A class as seen by C3 linearization: its path/name and its declared
base-name strings. -/
structure MClass where
  name : String
  bases : List String
  deriving Repr, DecidableEq

/-- `resolved_bases` followed by the `isinstance(base, Class)` filter of
`_mro`: each base name that the table resolves contributes its class;
unresolvable names are dropped (logged and skipped in the code). -/
def resolvedBases (table : List (String × MClass)) (c : MClass) : List MClass :=
  c.bases.filterMap (fun b => table.lookup b)

/-- Python `" -> ".join(seen)`. -/
def joinArrow : List String → String
  | [] => ""
  | [s] => s
  | s :: ss => s ++ " -> " ++ joinArrow ss

/-- One step of the C3 merge: the first head (scanning the sequences in
order) that does not occur in the tail of any sequence.

Modelled from the spec: the merge itself is `c3linear_merge` from
`griffe._internal.c3linear`, an external dependency not part of this
repository; the spec (§4.G) says "merge per standard C3 rules (this class at
head, then the merge of parents' MROs and the list of direct parents)",
which is the standard C3 merge implemented here. -/
def c3PickHead (seqs : List (List MClass)) : Option MClass :=
  (seqs.filterMap List.head?).find?
    (fun h => seqs.all (fun s => !((s.drop 1).contains h)))

/-- Modelled from the spec: standard C3 merge (`c3linear_merge`), fuelled by
the total number of elements.  Emits the picked head and removes it from
every sequence until all sequences are exhausted. -/
def c3Merge : Nat → List (List MClass) → Except PyErr (List MClass)
  | 0, _ => .error (.valueError "c3 merge did not terminate")
  | fuel + 1, seqs =>
    let seqs := seqs.filter (fun s => !s.isEmpty)
    if seqs.isEmpty then .ok []
    else
      match c3PickHead seqs with
      | none => .error (.valueError "Cannot create a consistent method resolution order")
      | some h =>
        (c3Merge fuel (seqs.map (fun s => s.filter (fun x => x ≠ h)))).map (h :: ·)

/-- `Class._mro(seen)` (objects.py 801-812), fuelled (the Python recursion
is bounded because `seen` grows along every branch and repeated paths
raise).  The cycle check scans `bases` in order and raises a builtin
`ValueError` — not a dedicated exception class — whose message names the
full chain. -/
def mroAux (table : List (String × MClass)) : Nat → MClass → List String →
    Except PyErr (List MClass)
  | 0, _, _ => .error (.valueError "mro recursion fuel exhausted")
  | fuel + 1, c, seen =>
    let seen := seen ++ [c.name]
    let bases := resolvedBases table c
    if bases.isEmpty then .ok [c]
    else
      match bases.find? (fun b => seen.contains b.name) with
      | some b =>
        .error (.valueError
          ("Cannot compute C3 linearization, inheritance cycle detected: "
            ++ joinArrow seen ++ " -> " ++ b.name))
      | none => do
        let parentMros ← bases.mapM (fun b => mroAux table fuel b seen)
        let merged ← c3Merge 1000 (parentMros ++ [bases])
        .ok (c :: merged)

/-- `Class.mro()` (objects.py 814-816): `self._mro()[1:]`. -/
def classMro (table : List (String × MClass)) (c : MClass) :
    Except PyErr (List MClass) :=
  (mroAux table (table.length + 1) c []).map (fun l => l.drop 1)

/-! ## `FileParser._parse_function` / `_parse_class` (treesitter.py 366-662)
and `_PathResolver._collect_classfolder` (collection.py 197-218) — method
assembly, implicit-instance stripping, getter/setter binding

Tree-sitter itself is an external dependency; the parser is embedded at the
level of the query captures it consumes.  A function definition yields the
captures of `FUNCTION_QUERY`: the `@name` identifier, the positional
`@input` identifiers, the `@output` identifiers, and the optional `get.` /
`set.` markers (`@getter` / `@setter`).  The `arguments ... end` block
refinement (treesitter.py 612-658) is not exercised by any claim and is not
modelled; `arguments` starts as the positional inputs in order
(treesitter.py 579-586). -/

/-- The `FUNCTION_QUERY` captures of one `function_definition` node. -/
structure FuncCapture where
  name : String
  inputs : List String
  outputs : List String
  getterMark : Bool
  setterMark : Bool
  deriving Repr, DecidableEq

/-- `Argument(name, kind=ArgumentKind.positional_only)` as built from an
`@input` capture (treesitter.py 580-585). -/
structure PArg where
  name : String
  deriving Repr, DecidableEq

/-- The `Function` fields relevant to the claims (objects.py 871-915). -/
structure PFunc where
  name : String
  args : List PArg
  isGetter : Bool
  isSetter : Bool
  static : Bool
  deriving Repr, DecidableEq

/-- `FileParser._parse_function` (treesitter.py 560-662) at capture level:
`method` selects the `@name` capture as the name, otherwise the file stem is
used; `Static` comes from the enclosing methods-block attributes
(`method_kwargs`); `getter` / `setter` from the markers. -/
def parseFunction (stem : String) (method : Bool) (static : Bool)
    (c : FuncCapture) : PFunc :=
  { name := if method then c.name else stem
    args := c.inputs.map PArg.mk
    isGetter := c.getterMark
    isSetter := c.setterMark
    static := static }

/-- Ordered-dict write: overwrite keeps the key's position, a fresh key is
appended (Python `dict` semantics). -/
def dictSet {κ α : Type} [BEq κ] (d : List (κ × α)) (k : κ) (v : α) :
    List (κ × α) :=
  if d.any (fun kv => kv.1 == k) then
    d.map (fun kv => if kv.1 == k then (k, v) else kv)
  else d ++ [(k, v)]

/-- A class member as assembled by `_parse_class`: a property (with its
bound getter/setter) or a method. -/
inductive CMember where
  | prop (getter setter : Option PFunc)
  | meth (f : PFunc)
  deriving Repr, DecidableEq

/-- The method object as produced inside `_parse_class`'s methods loop
(treesitter.py 507-513): parse with `method=True`, then
`if method.name != self.filepath.stem and not method.Static and method.arguments:`
drop the first argument (the implicit instance). -/
def methodFromCapture (stem : String) (static : Bool) (c : FuncCapture) : PFunc :=
  let m := parseFunction stem true static c
  if m.name != stem && !m.static && !m.args.isEmpty then
    { m with args := m.args.drop 1 }
  else m

/-- The getter/setter binding step of `_parse_class` (treesitter.py
514-529): a `get.`-marked method whose name is an existing *property*
member becomes that property's `getter` (and is not stored as a member);
if the same-named member is not a property the method is silently dropped
(`pass`); otherwise the method is stored as a member. -/
def addMethod (members : List (String × CMember)) (m : PFunc) :
    List (String × CMember) :=
  if m.isGetter && (members.lookup m.name).isSome then
    match members.lookup m.name with
    | some (.prop _ s) => dictSet members m.name (.prop (some m) s)
    | _ => members
  else if m.isSetter && (members.lookup m.name).isSome then
    match members.lookup m.name with
    | some (.prop g _) => dictSet members m.name (.prop g (some m))
    | _ => members
  else
    dictSet members m.name (.meth m)

/-- `_parse_class` member assembly (treesitter.py 366-531) at capture
level: the properties blocks populate `members` first (in source order;
only the property names matter to the claims — types, defaults, attributes
and enumerations are not modelled), then each methods block (carrying its
`Static` attribute) adds its methods through the stripping and binding
steps. -/
def parseClassMembers (stem : String) (props : List String)
    (blocks : List (Bool × List FuncCapture)) : List (String × CMember) :=
  let members0 := props.foldl (fun d p => dictSet d p (.prop none none)) []
  blocks.foldl
    (fun d blk =>
      blk.2.foldl (fun d c => addMethod d (methodFromCapture stem blk.1 c)) d)
    members0

/-- `_PathResolver._collect_classfolder` (collection.py 197-218) at capture
level, restricted to member assembly: every sibling `.m` file (other than
the classfile and `Contents.m`) is parsed standalone
(`FileParser.parse` → `_parse_function` with `method=False`, so its name is
the file stem and nothing strips the instance argument), and if it is a
`Function` it is stored under `object.members[method.name]`.  No getter or
setter binding happens here. -/
def collectClassfolderMembers (classMembers : List (String × CMember))
    (extras : List (String × FuncCapture)) : List (String × CMember) :=
  extras.foldl
    (fun d e => dictSet d (parseFunction e.1 false false e.2).name
      (.meth (parseFunction e.1 false false e.2)))
    classMembers

/-! ## Filesystem model and `pathlib` operations

A filesystem path is its list of components (`pathlib.Path.parts`); the
filesystem itself is a tree whose directory children are kept in iteration
order (`Path.iterdir` order).  A `.m` file carries the classification that
`FileParser.parse` (treesitter.py 311-351) would assign to its content —
function / script / classdef (tree-sitter itself is external; the `.m`
sources in the scenarios are well-formed, so parsing cannot fail) — plus,
for a classdef, whether the classdef carries a docstring (consulted by
`_collect_classfolder`'s `Contents.m` guard). -/

/-- A filesystem path as its components. -/
abbrev FsPath := List String

/-- What `FileParser.parse` produces for a `.m` file's content. -/
inductive SrcKind where
  | mfun
  | mscript
  | mclass (hasDoc : Bool)
  deriving Repr, DecidableEq

/-- A filesystem tree; directory children are in iteration order. -/
inductive FSTree where
  | file (name : String) (src : SrcKind)
  | dir (name : String) (children : List FSTree)
  deriving Repr

def FSTree.name : FSTree → String
  | .file n _ => n
  | .dir n _ => n

mutual

/-- Number of nodes in the tree (used as materialization fuel: the Python
recursion descends strictly into children, so its depth is bounded by the
node count). -/
def FSTree.nodeCount : FSTree → Nat
  | .file _ _ => 1
  | .dir _ cs => 1 + nodeCountList cs

def nodeCountList : List FSTree → Nat
  | [] => 0
  | t :: ts => t.nodeCount + nodeCountList ts

end

/-- `name[0]` (all names in the modelled trees are non-empty). -/
def headChar (s : String) : Char := s.data.headD ' '

/-- `pathlib` stem/suffix of a file or directory *name*: the suffix is the
part from the last `.` when that dot is neither the first nor the last
character; otherwise the suffix is empty and the stem is the whole name. -/
def stemSuffix (n : String) : String × String :=
  match n.data.reverse.span (fun c => c ≠ '.') with
  | (sufR, _dot :: stemR) =>
    if !stemR.isEmpty && !sufR.isEmpty then
      (⟨stemR.reverse⟩, ⟨'.' :: sufR.reverse⟩)
    else (n, "")
  | _ => (n, "")

/-- `Path.name`. -/
def fsName (p : FsPath) : String := p.getLast?.getD ""

/-- `Path.parent`. -/
def fsParent (p : FsPath) : FsPath := p.dropLast

/-- `Path.stem`. -/
def fsStem (p : FsPath) : String := (stemSuffix (fsName p)).1

/-- `Path.suffix`. -/
def fsSuffix (p : FsPath) : String := (stemSuffix (fsName p)).2

/-- Generic separator join (used for `"/".join` and `".".join`). -/
def joinSep (sep : String) : List String → String
  | [] => ""
  | [s] => s
  | s :: ss => s ++ sep ++ joinSep sep ss

/-- Python `str.split(c)` (structural). -/
def splitChars (c : Char) : List Char → List (List Char)
  | [] => [[]]
  | x :: xs =>
    let r := splitChars c xs
    if x = c then [] :: r
    else
      match r with
      | h :: t => (x :: h) :: t
      | [] => [[x]]

/-- Python `s.split(c)`. -/
def splitSep (c : Char) (s : String) : List String :=
  (splitChars c s.data).map (fun l => ⟨l⟩)

/-- Render a path for error messages. -/
def fsShow (p : FsPath) : String := joinSep "/" p

/-- Locate the node at a path. -/
def findNode : FSTree → FsPath → Option FSTree
  | t, [] => some t
  | .file _ _, _ :: _ => none
  | .dir _ cs, c :: rest =>
    match cs.find? (fun ch => ch.name == c) with
    | some ch => findNode ch rest
    | none => none

def existsAt (fs : FSTree) (p : FsPath) : Bool := (findNode fs p).isSome

def isDirAt (fs : FSTree) (p : FsPath) : Bool :=
  match findNode fs p with
  | some (.dir _ _) => true
  | _ => false

def isFileAt (fs : FSTree) (p : FsPath) : Bool :=
  match findNode fs p with
  | some (.file _ _) => true
  | _ => false

/-- The children of a directory, in iteration order. -/
def childrenAt (fs : FSTree) (p : FsPath) : List FSTree :=
  match findNode fs p with
  | some (.dir _ cs) => cs
  | _ => []

/-! ## `_PathGlobber` (collection.py lines 33-75) -/

/-- `FOLDER_PREFIXES = (CLASSFOLDER_PREFIX, NAMESPACE_PREFIX)`
(collection.py 21-23). -/
def FOLDER_PREFIXES : List Char := ['@', '+']

/-! `_PathGlobber._glob` (collection.py 43-58) walks the children of one
directory, in iteration order:

* a subdirectory is recursed into (emitting nothing for itself) iff
  recursion is on, its `name[0]` is not `@`/`+`, and its stem is not
  `private`;
* otherwise a subdirectory whose `stem[0]` is `@`/`+` is emitted and then
  recursed into with recursion off;
* a file is emitted iff its suffix is `.m` and its name is not
  `Contents.m`. -/

mutual

/-- One loop iteration of `_PathGlobber._glob` for a single member. -/
def globMember (recursive : Bool) (mp : FsPath) : FSTree → List FsPath
  | .dir n cs =>
    if recursive && !(FOLDER_PREFIXES.contains (headChar n))
        && (stemSuffix n).1 ≠ "private" then
      globChildren true mp cs
    else if FOLDER_PREFIXES.contains (headChar (stemSuffix n).1) then
      mp :: globChildren false mp cs
    else []
  | .file n _ =>
    if (stemSuffix n).2 == ".m" && n ≠ "Contents.m" then [mp] else []

/-- `_PathGlobber._glob` over a directory's children. -/
def globChildren (recursive : Bool) (base : FsPath) : List FSTree → List FsPath
  | [] => []
  | m :: ms =>
    globMember recursive (base ++ [m.name]) m ++ globChildren recursive base ms

end

/-- `list(_PathGlobber(path, recursive))`: globbing a missing or non-dir
path raises in `path.iterdir()`. -/
def glob (fs : FSTree) (root : FsPath) (recursive : Bool) :
    Except PyErr (List FsPath) :=
  match findNode fs root with
  | some (.dir _ cs) => .ok (globChildren recursive root cs)
  | some (.file _ _) => .error (.fileNotFound ("Not a directory: " ++ fsShow root))
  | none => .error (.fileNotFound ("Path does not exist: " ++ fsShow root))

/-! ## `_PathResolver` classification and identifier (collection.py 97-137) -/

/-- `_PathResolver.is_folder`. -/
def rIsFolder (fs : FSTree) (p : FsPath) : Bool :=
  isDirAt fs p && !(FOLDER_PREFIXES.contains (headChar (fsName p)))

/-- `_PathResolver.is_class_folder`. -/
def rIsClassFolder (fs : FSTree) (p : FsPath) : Bool :=
  isDirAt fs p && headChar (fsName p) == '@'

/-- `_PathResolver.is_namespace`. -/
def rIsNamespace (fs : FSTree) (p : FsPath) : Bool :=
  isDirAt fs p && headChar (fsName p) == '+'

/-- `_PathResolver.is_in_namespace` (collection.py 109-111): note the test
requires `self._path.is_dir()` — it is `False` for every *file*, whatever
directory the file is in. -/
def rIsInNamespace (fs : FSTree) (p : FsPath) : Bool :=
  isDirAt fs p && headChar (fsName (fsParent p)) == '+'

/-- `_PathResolver.name` (collection.py 113-137): when `is_in_namespace`,
walk `parts` from the second-to-last upward while each begins with `+`,
collect their stripped names (reversed) as a dotted prefix; then take the
name without its `+`/`@` for class folders and namespaces and the stem
otherwise, and put a literal `+` in front for namespaces. -/
def resolverName (fs : FSTree) (p : FsPath) : String :=
  let ns :=
    if rIsInNamespace fs p then
      let nameparts :=
        ((fsParent p).reverse.takeWhile (fun c => headChar c == '+')).map
          (fun c => strDrop c 1)
      joinSep "." nameparts.reverse ++ "."
    else ""
  let nm :=
    if rIsClassFolder fs p || rIsNamespace fs p then ns ++ strDrop (fsName p) 1
    else ns ++ fsStem p
  if rIsNamespace fs p then "+" ++ nm else nm

/-! ## Materialized objects and the alias cache

A materialized object keeps the fields the collection reads: `name`,
`kind`, `filepath`, a *reference* to its parent object (Python keeps an
object reference; here the store key of the parent, which is always a
strictly shorter path), and the collection-level `members` as name→store
references (`object.members[subobject.name] = subobject`).  Parse-level
members of classdef bodies (properties, classdef methods) are modelled in
the capture-level parser section above and are not duplicated here; no
claim reads them through the collection.  The store is the set of resolved
`Alias._target` caches, keyed by the alias's filesystem path. -/

structure MObj where
  name : String
  kind : Kind
  filepath : FsPath
  parentRef : Option FsPath
  memberRefs : List (String × FsPath)
  deriving Repr, DecidableEq

abbrev Store := List (FsPath × MObj)

def storeGet (s : Store) (p : FsPath) : Option MObj := s.lookup p

def storeSet (s : Store) (p : FsPath) (o : MObj) : Store := dictSet s p o

def storeErase (s : Store) (p : FsPath) : Store := s.filter (fun kv => kv.1 ≠ p)

/-- `method.parent = object` / `subobject.parent = object`: mutate the
cached object's parent reference. -/
def storeSetParent (s : Store) (p : FsPath) (par : FsPath) : Store :=
  s.map (fun kv => if kv.1 == p then (kv.1, { kv.2 with parentRef := some par }) else kv)

/-- `Object.canonical_path` (objects.py 414-424) through parent references,
fuelled by the path length (a parent reference is always a strictly shorter
path). -/
def canonicalOf (s : Store) : Nat → MObj → String
  | 0, o => o.name
  | fuel + 1, o =>
    match o.parentRef with
    | none => o.name
    | some pr =>
      match storeGet s pr with
      | none => o.name
      | some par => canonicalOf s fuel par ++ "." ++ o.name

/-- `Object.path` / `Namespace.path`: the canonical path, `+`-prefixed for
namespaces (objects.py 404-412, 718-726). -/
def pathOfObj (s : Store) (fuel : Nat) (o : MObj) : String :=
  if o.kind == Kind.NAMESPACE then "+" ++ canonicalOf s fuel o
  else canonicalOf s fuel o

def srcToKind : SrcKind → Kind
  | .mfun => Kind.FUNCTION
  | .mscript => Kind.SCRIPT
  | .mclass _ => Kind.CLASS

/-- `_PathResolver._collect_path` (collection.py 160-164) →
`FileParser.parse` (treesitter.py 311-351): a file parses to one top-level
object whose name is the file stem (`_parse_function` with `method=False`
and `Script`/`_parse_class` all use `self.filepath.stem`), with no parent.
(The source-lines cache it also fills is not read by any claim.) -/
def parseFileAt (fs : FSTree) (p : FsPath) : Except PyErr MObj :=
  match findNode fs p with
  | some (.file n src) => .ok ⟨(stemSuffix n).1, srcToKind src, p, none, []⟩
  | _ => .error (.fileNotFound ("Path does not exist: " ++ fsShow p))

/-- Whether the classdef in a classfolder's classfile has its own docstring
(`object.docstring is None` guard of `_collect_classfolder`). -/
def classfileHasDoc (fs : FSTree) (p : FsPath) : Bool :=
  match findNode fs p with
  | some (.file _ (.mclass d)) => d
  | _ => false

/-- `Alias._actual` on a constructor result (objects.py 598-614): a `None`
target raises `ValueError(f"target of {self.name} is None")`. -/
def aliasTargetWith (r : Except PyErr (Store × Option MObj)) (q : FsPath) :
    Except PyErr (Store × MObj) :=
  match r with
  | .error e => .error e
  | .ok (_, none) => .error (.valueError ("target of " ++ fsStem q ++ " is None"))
  | .ok (s, some o) => .ok (s, o)

/-- `Alias._actual` → `_PathResolver.__call__` (objects.py 592-623,
collection.py 139-228), fuelled by the tree size (each nested call descends
into a child of the current directory).

* a resolved alias returns its cached target at once;
* otherwise `__call__` checks existence, dispatches on the path class, and
  caches a non-`None` result;
* `_collect_classfolder` (197-218): parse `@N/N.m` (returning `None` when
  it is missing or not a classdef); attach every other sibling `.m` file —
  through the *shared* alias of that file (`KeyError` when it has none) —
  as a member with the class as parent when it is a `Function`;
  `Contents.m` only feeds the docstring (and only when the classdef had
  none — otherwise it falls through to the alias lookup and raises
  `KeyError`, since `Contents.m` is never globbed);
* `_collect_namespace` / `_collect_folder` (220-228) build the object and
  run `_collect_directory` (166-195): every `@`/`+` child directory and
  every `.m` child file is attached through its shared alias
  (`KeyError` when missing); `set_parent` is true for namespaces and false
  for folders; `Contents.m` and `README.md` only feed docstrings;
* the trailing step of `__call__` (152-157) for a path inside a `+` parent
  looks up the parent's alias (`KeyError` when absent) — but then compares
  it with `isinstance(parent, Namespace)`, which is always false for an
  `Alias`, so no parent is assigned there (and the `ValueError` in its
  `else` arm is constructed but never raised). -/
def materializeAux (fs : FSTree) (objKeys : List FsPath) :
    Nat → Store → FsPath → Except PyErr (Store × Option MObj)
  | 0, _, _ => .error (.valueError "materialization fuel exhausted")
  | fuel + 1, store, p =>
    match storeGet store p with
    | some o => .ok (store, some o)
    | none =>
      if !(existsAt fs p) then
        .error (.fileNotFound ("Path does not exist: " ++ fsShow p))
      else do
        let collectDir : Store → Bool → Except PyErr (Store × List (String × FsPath)) :=
          fun store setParent =>
            (childrenAt fs p).foldlM
              (fun (acc : Store × List (String × FsPath)) child => do
                let (store, refs) := acc
                let item := p ++ [child.name]
                match child with
                | .dir n _ =>
                  if FOLDER_PREFIXES.contains (headChar n) then do
                    if !(objKeys.contains item) then
                      throw (.keyError ("Path not found in collection: " ++ fsShow item))
                    let (store, sub) ←
                      aliasTargetWith (materializeAux fs objKeys fuel store item) item
                    let store := if setParent then storeSetParent store item p else store
                    pure (store, refs ++ [(sub.name, item)])
                  else pure (store, refs)
                | .file n _ =>
                  if (stemSuffix n).2 == ".m" then
                    if n == "Contents.m" then
                      pure (store, refs)
                    else do
                      if !(objKeys.contains item) then
                        throw (.keyError ("Path not found in collection: " ++ fsShow item))
                      let (store, sub) ←
                        aliasTargetWith (materializeAux fs objKeys fuel store item) item
                      let store := if setParent then storeSetParent store item p else store
                      pure (store, refs ++ [(sub.name, item)])
                  else pure (store, refs))
              (store, [])
        let (store, res) ← (do
          if rIsClassFolder fs p then do
            let classfile := p ++ [strDrop (fsName p) 1 ++ ".m"]
            if !(existsAt fs classfile) then pure (store, none)
            else do
              let obj ← parseFileAt fs classfile
              if obj.kind != Kind.CLASS then pure (store, (none : Option MObj))
              else do
                let hasDoc := classfileHasDoc fs classfile
                let (store, refs) ← (childrenAt fs p).foldlM
                  (fun (acc : Store × List (String × FsPath)) child => do
                    let (store, refs) := acc
                    let member := p ++ [child.name]
                    match child with
                    | .file n _ =>
                      if (stemSuffix n).2 == ".m" && member ≠ classfile then
                        if n == "Contents.m" && !hasDoc then
                          pure (store, refs)
                        else do
                          if !(objKeys.contains member) then
                            throw (.keyError
                              ("Path not found in collection: " ++ fsShow member))
                          let (store, m) ←
                            aliasTargetWith (materializeAux fs objKeys fuel store member)
                              member
                          if m.kind == Kind.FUNCTION then
                            pure (storeSetParent store member p, refs ++ [(m.name, member)])
                          else pure (store, refs)
                      else pure (store, refs)
                    | .dir _ _ => pure (store, refs))
                  (store, [])
                pure (store, some { obj with memberRefs := refs })
          else if rIsNamespace fs p then do
            let full := strDrop (resolverName fs p) 1
            let nm := (splitSep '.' full).getLast?.getD full
            let (store, refs) ← collectDir store true
            pure (store, some (⟨nm, Kind.NAMESPACE, p, none, refs⟩ : MObj))
          else if rIsFolder fs p then do
            let (store, refs) ← collectDir store false
            pure (store, some (⟨"/" ++ fsStem p, Kind.FOLDER, p, none, refs⟩ : MObj))
          else do
            let o ← parseFileAt fs p
            pure (store, some o))
        let store := match res with
          | some o => storeSet store p o
          | none => store
        if res.isSome && rIsInNamespace fs p && !(objKeys.contains (fsParent p)) then
          throw (.keyError (fsShow (fsParent p)))
        else
          pure (store, res)

/-! ## `PathsCollection` (collection.py lines 291-529)

State fields: `_path` (deque of roots), `_mapping` (identifier → deque of
candidate paths; a `defaultdict`, so keys persist with empty deques),
`_objects` (path → `Alias`, insertion-ordered; the alias's name is always
`member.stem` and its resolvedness lives in the store), `_members`
(root → list of `(alias name, path)` pairs), `_folders` (directory → folder
alias; only the keys matter until a `/`-lookup materializes one — the
folder alias is modelled as sharing the object cache, which no claim
observes since none uses `/`-identifiers), and the working directory.
`LinesCollection` is not modelled (no claim reads source lines). -/

structure CollState where
  path : List FsPath
  mapping : List (String × List FsPath)
  objects : List FsPath
  store : Store
  membersByRoot : List (FsPath × List (String × FsPath))
  folders : List FsPath
  workdir : FsPath
  deriving Repr, DecidableEq

/-- A collection before any `addpath` (`PathsCollection.__init__` with an
empty `matlab_path`). -/
def emptyState (workdir : FsPath) : CollState :=
  ⟨[], [], [], [], [], [], workdir⟩

/-- `defaultdict(deque)` append: `self._mapping[key].append(v)`. -/
def mappingAppend (m : List (String × List FsPath)) (k : String) (v : FsPath) :
    List (String × List FsPath) :=
  if m.any (fun kv => kv.1 == k) then
    m.map (fun kv => if kv.1 == k then (kv.1, kv.2 ++ [v]) else kv)
  else m ++ [(k, [v])]

/-- `defaultdict(list)` append: `self._members[root].append(v)`. -/
def membersAppend (m : List (FsPath × List (String × FsPath))) (k : FsPath)
    (v : String × FsPath) : List (FsPath × List (String × FsPath)) :=
  if m.any (fun kv => kv.1 == k) then
    m.map (fun kv => if kv.1 == k then (kv.1, kv.2 ++ [v]) else kv)
  else m ++ [(k, [v])]

/-- `PathsCollection.addpath` (collection.py 448-481):

1. remove `root` from `_path` if present, then insert at front or back;
2. for every member the globber emits, store a *fresh*, unresolved
   `Alias(member.stem, _PathResolver(member))` in `_objects` (overwriting —
   and hence un-resolving — any previous alias for the same path, at its
   original dict position);
3. then iterate over **all** of `_objects` (collection.py 474: the loop is
   over `self._objects.items()`, not over the newly globbed members):
   reading `object.path` forwards through `Alias.__getattr__` to the
   materialized target, so each alias is resolved here and its target's
   dotted path becomes the `_mapping` key (appended to that identifier's
   deque); `(object.name, member)` — the alias's name is `member.stem` — is
   recorded under `_members[root]`; and the member's parent directory gains
   a `_folders` alias if it has none. -/
def addpath (fs : FSTree) (st : CollState) (root : FsPath)
    (toEnd : Bool := false) (recursive : Bool := false) :
    Except PyErr CollState := do
  let path := st.path.erase root
  let path := if toEnd then path ++ [root] else root :: path
  let globbed ← glob fs root recursive
  let (objects, store) := globbed.foldl
    (fun (acc : List FsPath × Store) member =>
      if acc.1.contains member then (acc.1, storeErase acc.2 member)
      else (acc.1 ++ [member], acc.2))
    (st.objects, st.store)
  let (store, mapping, members, folders) ← objects.foldlM
    (fun (acc : Store × List (String × List FsPath) ×
        List (FsPath × List (String × FsPath)) × List FsPath) member => do
      let (store, mapping, members, folders) := acc
      let (store, obj) ←
        aliasTargetWith (materializeAux fs objects (fs.nodeCount + 2) store member) member
      let key := pathOfObj store (member.length + 2) obj
      let mapping := mappingAppend mapping key member
      let members := membersAppend members root (fsStem member, member)
      let folders :=
        if folders.contains (fsParent member) then folders
        else folders ++ [fsParent member]
      pure (store, mapping, members, folders))
    (store, st.mapping, st.membersByRoot, st.folders)
  pure { st with path, mapping, objects, store, membersByRoot := members, folders }

/-- `PathsCollection.__getitem__` (collection.py 383-446), fuelled by the
number of dotted segments (the third branch recurses on the identifier
minus its last segment):

1. an identifier present in `_mapping` (a `defaultdict`, so keys removed
   down to empty deques still count as present) resolves through
   `self._objects[self._mapping[identifier][0]].target` — an empty deque
   raises `IndexError`, a path without an alias raises `KeyError`;
2. an identifier containing `/` is resolved against the working directory
   (`Path.resolve()` is modelled as concatenation — no claim uses relative
   `..` segments) and served from `_folders`;
3. a dotted identifier resolves its prefix recursively and fetches the last
   segment from the prefix object's `members`;
4. otherwise the result is `None`. -/
def getItem (fs : FSTree) (st : CollState) :
    Nat → String → Except PyErr (CollState × Option MObj)
  | fuel, id => do
    if st.mapping.any (fun kv => kv.1 == id) then
      match (st.mapping.lookup id).getD [] with
      | [] => throw (.indexError "deque index out of range")
      | m :: _ =>
        if !(st.objects.contains m) then throw (.keyError (fsShow m))
        else do
          let (store, obj) ←
            aliasTargetWith (materializeAux fs st.objects (fs.nodeCount + 2) st.store m) m
          pure ({ st with store }, some obj)
    else if strContains id "/" then do
      let absolute := st.workdir ++ splitSep '/' id
      if !(existsAt fs absolute) then pure (st, none)
      else
        let dirPath := if fsSuffix absolute ≠ "" then fsParent absolute else absolute
        let member? := if fsSuffix absolute ≠ "" then some (fsStem absolute) else none
        if !(st.folders.contains dirPath) then pure (st, none)
        else do
          let (store, folderObj) ←
            aliasTargetWith (materializeAux fs st.objects (fs.nodeCount + 2) st.store dirPath)
              dirPath
          let st := { st with store }
          if folderObj.kind == Kind.FOLDER && member?.isSome then
            match member?.bind (fun mn => folderObj.memberRefs.lookup mn) with
            | some ref => pure (st, storeGet st.store ref)
            | none => pure (st, none)
          else pure (st, some folderObj)
    else
      let parts := splitSep '.' id
      if parts.length > 1 then
        match fuel with
        | 0 => throw (.valueError "lookup fuel exhausted")
        | fuel + 1 => do
          let (st, base?) ← getItem fs st fuel (joinSep "." parts.dropLast)
          match base? with
          | none => pure (st, none)
          | some base =>
            match base.memberRefs.lookup (parts.getLast?.getD "") with
            | some ref => pure (st, storeGet st.store ref)
            | none => pure (st, none)
      else pure (st, none)

/-- `get_member` (collection.py 365-366) is `self[identifier]`. -/
def getMember (fs : FSTree) (st : CollState) (id : String) :
    Except PyErr (CollState × Option MObj) :=
  getItem fs st (id.data.length + 1) id

/-- `_is_subdirectory` (collection.py 512-528): `child.relative_to(parent)`
succeeds iff `parent`'s parts are a prefix of `child`'s. -/
def isSubPath (parent child : FsPath) : Bool := parent.isPrefixOf child

/-- The non-recursive body of `PathsCollection.rm_path` (collection.py
483-505): if the root is on `_path`, remove it and, for every
`(name, member)` recorded under `_members[root]` (popped; `KeyError` if the
key is somehow missing): `self._mapping[name].remove(member)` — the
`defaultdict` access creates the key when missing, and `deque.remove`
removes the *first* occurrence, raising `ValueError` when the value is
absent — and `self._objects.pop(member)`, raising `KeyError` when `member`
has no alias.  The mapping key itself is never deleted. -/
def rmPathCore (st : CollState) (root : FsPath) : Except PyErr CollState := do
  if !(st.path.contains root) then pure st
  else do
    let path := st.path.erase root
    let entries ← match st.membersByRoot.lookup root with
      | some e => pure e
      | none => throw (.keyError (fsShow root))
    let members := st.membersByRoot.filter (fun kv => kv.1 ≠ root)
    let (mapping, objects) ← entries.foldlM
      (fun (acc : List (String × List FsPath) × List FsPath) nv => do
        let (mapping, objects) := acc
        let (nm, member) := nv
        let mapping :=
          if mapping.any (fun kv => kv.1 == nm) then mapping else mapping ++ [(nm, [])]
        let dq := (mapping.lookup nm).getD []
        if !(dq.contains member) then
          throw (.valueError "deque.remove(x): x not in deque")
        else do
          let mapping :=
            mapping.map (fun kv => if kv.1 == nm then (kv.1, kv.2.erase member) else kv)
          if !(objects.contains member) then throw (.keyError (fsShow member))
          else pure (mapping, objects.erase member))
      (st.mapping, st.objects)
    pure { st with path, mapping, objects, membersByRoot := members }

/-- `PathsCollection.rm_path` (collection.py 483-509): the core removal,
then — when `recursive` and the root was present — `rm_path(subdir, False)`
for every remaining root that is a subdirectory of `root`. -/
def rmPath (st : CollState) (root : FsPath) (recursive : Bool := false) :
    Except PyErr CollState := do
  let present := st.path.contains root
  let st ← rmPathCore st root
  if recursive && present then
    (st.path.filter (fun item => isSubPath root item)).foldlM
      (fun s sub => rmPathCore s sub) st
  else pure st

/-! ## `Enumeration` (objects.py lines 843-869) -/

/-- An enumeration member produced by `_parse_class.add_enum`
(treesitter.py 404-410): `Enumeration(identifier, ...)` with
`kind: Kind = Kind.ENUMERATION` (objects.py line 846). -/
structure EnumMemberObj where
  name : String
  deriving Repr, DecidableEq

/-- `Enumeration.kind` — the class attribute `Kind.ENUMERATION`. -/
def EnumMemberObj.kind (_ : EnumMemberObj) : Kind := Kind.ENUMERATION

/-- `Object.is_class` applied to an enumeration member. -/
def EnumMemberObj.is_class (e : EnumMemberObj) : Bool := isClassKind e.kind

end Maxx

namespace Maxx

/-! # Scenario fixtures

Concrete filesystems and capture-level sources used by the claim theorems.
`fsShadow` is the spec's S5 scenario (two roots `A/` and `B/`, each with a
function file `util.m`); `fsRound` is a single root carrying one file of
each discovery shape (plain file, `+namespace` file, `@class` folder with a
classfile and a method file). -/

/-- S5: roots `A/` and `B/` both containing `util.m`. -/
def fsShadow : FSTree := .dir "" [
  .dir "A" [.file "util.m" .mfun],
  .dir "B" [.file "util.m" .mfun]]

/-- A root with a plain file, a namespace file and a class folder. -/
def fsRound : FSTree := .dir "" [
  .dir "root" [
    .file "util.m" .mfun,
    .dir "+pkg" [.file "bar.m" .mfun],
    .dir "@Widget" [.file "Widget.m" (.mclass false), .file "resize.m" .mfun]]]

/-- The class table of §8.7 / S6: `C < A & B`, `A < H`, `B < H`. -/
def mroTable : List (String × MClass) :=
  [("A", ⟨"A", ["H"]⟩), ("B", ⟨"B", ["H"]⟩), ("H", ⟨"H", []⟩),
   ("C", ⟨"C", ["A", "B"]⟩)]

/-- S6 after making `A` extend `C`: the inheritance cycle `C → A → C`. -/
def mroCycTable : List (String × MClass) :=
  [("C", ⟨"C", ["A"]⟩), ("A", ⟨"A", ["C"]⟩)]

/-- Whether a result is the spec-modelled `InheritanceCycle` error kind. -/
def isInheritanceCycleErr (r : Except PyErr (List MClass)) : Bool :=
  match r with
  | .error (.inheritanceCycle _) => true
  | _ => false

/-- The extra method files of the S3/S4 class folder `@Widget/`:
`resize.m` containing `function resize(obj, n)` and `get.value.m`
containing `function v = get.value(obj)` (the `FUNCTION_QUERY` `@name`
capture of the latter is `value`, with the `get.` marker captured). -/
def widgetClassfolderExtras : List (String × FuncCapture) :=
  [("resize", ⟨"resize", ["obj", "n"], [], false, false⟩),
   ("get.value", ⟨"value", ["obj"], ["v"], true, false⟩)]

/-- The members of `collection["Widget"]` in S3/S4: the classfile declares
property `value` and no methods blocks; the extra `.m` files are attached by
`_collect_classfolder`. -/
def widgetClassfolderMembers : List (String × CMember) :=
  collectClassfolderMembers (parseClassMembers "Widget" ["value"] [])
    widgetClassfolderExtras

/-! # Claim theorems -/

/-- **C1** (code_bug).  First half of the claim (and of spec §8.2/S5):
after `addpath(A); addpath(B)` the lookup of `util` returns the object for
`A/util.m` — the root added first wins, because `addpath` *appends* to the
identifier's deque.  Second half: the claim says that after `rm_path(A)`
the lookup returns `B/util.m`; instead it raises `KeyError`.  The cause:
`addpath(B)`'s registration loop runs over **all** of `_objects`
(collection.py 474), so it appended `A/util.m` a second time to
`_mapping["util"]` (and recorded it under `_members[B]`); `rm_path(A)`
removes only the first of the two stale copies and pops the object, leaving
the deque front pointing at `A/util.m`, which no longer has an alias. -/
theorem shadowing_lookup_breaks_after_rm_path :
    (do
      let s1 ← addpath fsShadow (emptyState []) ["A"]
      let s2 ← addpath fsShadow s1 ["B"]
      let r ← getItem fsShadow s2 3 "util"
      pure (r.2.map MObj.filepath)) = .ok (some ["A", "util.m"])
    ∧ (do
      let s1 ← addpath fsShadow (emptyState []) ["A"]
      let s2 ← addpath fsShadow s1 ["B"]
      let s3 ← rmPath s2 ["A"]
      let r ← getItem fsShadow s3 3 "util"
      pure (r.2.map MObj.filepath)) = .error (.keyError "A/util.m") :=
  ⟨by decide, by decide⟩

/-- **C2** (code_bug).  The claim (spec §8.8) says repeating `addpath(R)`
leaves the identifier map unchanged and that `addpath(R); rm_path(R)`
restores the pre-add state exactly.  In the code, `addpath`'s registration
loop runs over all of `_objects`, so the second `addpath(R)` appends the
same candidate a second time (`util ↦ [m, m]` instead of `[m]`); a
subsequent `rm_path(R)` then pops the same alias twice and raises
`KeyError`; and even from a fresh state `addpath(R); rm_path(R)` leaves the
identifier key behind with an empty deque (`defaultdict` keys are never
deleted), so the mapping is not restored exactly. -/
theorem addpath_is_not_idempotent :
    (do
      let s1 ← addpath fsShadow (emptyState []) ["A"]
      let s2 ← addpath fsShadow s1 ["A"]
      pure s2.mapping) = .ok [("util", [["A", "util.m"], ["A", "util.m"]])]
    ∧ (do
      let s1 ← addpath fsShadow (emptyState []) ["A"]
      pure s1.mapping) = .ok [("util", [["A", "util.m"]])]
    ∧ [("util", [["A", "util.m"], ["A", "util.m"]])]
        ≠ [("util", [["A", "util.m"]])]
    ∧ (do
      let s1 ← addpath fsShadow (emptyState []) ["A"]
      let s2 ← addpath fsShadow s1 ["A"]
      let s3 ← rmPath s2 ["A"]
      pure s3.mapping) = .error (.keyError "A/util.m")
    ∧ (do
      let s1 ← addpath fsShadow (emptyState []) ["A"]
      let s1x ← rmPath s1 ["A"]
      pure (decide (s1x = emptyState []) : Bool)) = .ok false
    ∧ (do
      let s1 ← addpath fsShadow (emptyState []) ["A"]
      let s1x ← rmPath s1 ["A"]
      pure s1x.mapping) = .ok [("util", [])] :=
  ⟨by decide, by decide, by decide, by decide, by decide, by decide⟩

/-- **C3 counterexample**.  The identifier computed by `_PathResolver.name`
for the class-folder method file `@Widget/resize.m` is `"resize"` (a file is
never `is_in_namespace` — the test requires `is_dir()` — and gets no class
qualification either), and for `+pkg/bar.m` it is `"bar"`; looking either
identifier up in the collection yields `None`, not an object whose
`filepath` is the file — the claim's round-trip fails for files inside
`+namespace` directories and `@class` folders. -/
theorem resolver_name_roundtrip_fails :
    resolverName fsRound ["root", "@Widget", "resize.m"] = "resize"
    ∧ resolverName fsRound ["root", "+pkg", "bar.m"] = "bar"
    ∧ (do
      let s ← addpath fsRound (emptyState []) ["root"] false true
      let r1 ← getItem fsRound s 3 "resize"
      let r2 ← getItem fsRound s 3 "bar"
      pure [r1.2.map MObj.filepath, r2.2.map MObj.filepath])
      = .ok [none, none] :=
  ⟨by decide, by decide, by decide⟩

set_option maxHeartbeats 2000000 in
/-- **C3 amended**.  The identifiers under which `addpath` actually
registers the discovered files are the materialized objects' dotted paths —
the stem for a top-level file, namespace-qualified for a file in a `+`
directory, class-qualified for a class-folder method file — and with
*those* identifiers the round-trip holds for every discovered `.m` file:
`util`, `pkg.bar`, `Widget` (the classfile, served through the class-folder
object whose `filepath` is `@Widget/Widget.m`) and `Widget.resize`. -/
theorem registered_identifier_roundtrip :
    (do
      let s ← addpath fsRound (emptyState []) ["root"] false true
      pure (s.mapping.map Prod.fst))
      = .ok ["util", "+pkg", "pkg.bar", "Widget", "Widget.resize"]
    ∧ (do
      let s ← addpath fsRound (emptyState []) ["root"] false true
      let r1 ← getItem fsRound s 3 "util"
      let r2 ← getItem fsRound s 3 "pkg.bar"
      let r3 ← getItem fsRound s 3 "Widget"
      let r4 ← getItem fsRound s 3 "Widget.resize"
      pure [r1.2.map MObj.filepath, r2.2.map MObj.filepath,
        r3.2.map MObj.filepath, r4.2.map MObj.filepath])
      = .ok [some ["root", "util.m"], some ["root", "+pkg", "bar.m"],
          some ["root", "@Widget", "Widget.m"],
          some ["root", "@Widget", "resize.m"]] :=
  ⟨by decide, by decide⟩

/-- **C4 counterexample**.  On the inheritance cycle `C → A → C`
(`classdef C < A` with `A < C`), `mro()` raises a plain builtin
`ValueError` (objects.py 809-811) whose message names the full chain — not
an error of the spec's `InheritanceCycle` kind (no such exception class
exists in the code base). -/
theorem mro_cycle_raises_plain_valueerror :
    classMro mroCycTable ⟨"C", ["A"]⟩
      = .error (.valueError
        "Cannot compute C3 linearization, inheritance cycle detected: C -> A -> C")
    ∧ isInheritanceCycleErr (classMro mroCycTable ⟨"C", ["A"]⟩) = false :=
  ⟨by decide, by decide⟩

/-- **C4 amended**.  For `C < A & B` with `A < H` and `B < H` (all
resolvable), `C.mro()` is `[A, B, H]` in C3 order; and on an inheritance
cycle `mro()` raises a builtin `ValueError` whose message names the full
chain of class paths (`C -> A -> C`). -/
theorem mro_c3_order_and_cycle_error :
    (classMro mroTable ⟨"C", ["A", "B"]⟩).map (fun l => l.map MClass.name)
      = .ok ["A", "B", "H"]
    ∧ classMro mroCycTable ⟨"C", ["A"]⟩
      = .error (.valueError
        "Cannot compute C3 linearization, inheritance cycle detected: C -> A -> C") :=
  ⟨by decide, by decide⟩

/-- **C5 counterexample**.  For the getter *file* `@Widget/get.value.m`
(S4), `_collect_classfolder` attaches the parsed function as a regular
member under its file stem `"get.value"` and never touches the property:
`members["value"].getter` stays `None` and `"get.value"` appears as a
separate member — contradicting both halves of the claim for the
class-folder case. -/
theorem classfolder_getter_file_not_bound :
    widgetClassfolderMembers.lookup "value" = some (.prop none none)
    ∧ widgetClassfolderMembers.lookup "get.value"
      = some (.meth ⟨"get.value", [⟨"obj"⟩], true, false, false⟩) :=
  ⟨by decide, by decide⟩

/-- **C5 amended**.  Inside a classdef body, a `get.`-marked method whose
name matches an existing property is bound as that property's getter and
does not appear as a separate member (its implicit instance argument is
also stripped).  A getter *file* in a class folder, by contrast, is
attached as a regular member named `get.value`, and the property's
`getter` stays `None`. -/
theorem getter_binding_classdef_body_only :
    parseClassMembers "Widget" ["value"]
        [(false, [⟨"value", ["obj"], ["X"], true, false⟩])]
      = [("value", .prop (some ⟨"value", [], true, false, false⟩) none)]
    ∧ widgetClassfolderMembers.lookup "value" = some (.prop none none)
    ∧ widgetClassfolderMembers.lookup "get.value"
      = some (.meth ⟨"get.value", [⟨"obj"⟩], true, false, false⟩) :=
  ⟨by decide, by decide, by decide⟩

/-- **C6 counterexample**.  The class-folder method file
`@Widget/resize.m` declaring `function resize(obj, n)` is parsed standalone
by `_collect_classfolder` (no stripping happens outside `_parse_class`'s
methods loop), so the member's `arguments[0].name` is `"obj"`, not `"n"`
as the claim says. -/
theorem classfolder_method_keeps_instance_argument :
    widgetClassfolderMembers.lookup "resize"
      = some (.meth ⟨"resize", [⟨"obj"⟩, ⟨"n"⟩], false, false, false⟩)
    ∧ "obj" ≠ "n" :=
  ⟨by decide, by decide⟩

/-- **C6 amended**.  The implicit-instance stripping applies to methods
parsed inside a classdef body: for any non-static method capture whose name
differs from the class stem and whose inputs are non-empty, the first
positional argument is removed.  A class-folder method file keeps its
instance argument (`resize.arguments[0].name == "obj"`). -/
theorem classdef_method_strips_first_argument (stem : String) (c : FuncCapture)
    (x : String) (rest : List String)
    (hname : c.name ≠ stem) (hin : c.inputs = x :: rest) :
    (methodFromCapture stem false c).args = rest.map PArg.mk
    ∧ widgetClassfolderMembers.lookup "resize"
      = some (.meth ⟨"resize", [⟨"obj"⟩, ⟨"n"⟩], false, false, false⟩) := by
  refine ⟨?_, by decide⟩
  simp only [methodFromCapture, parseFunction, hin, if_true]
  have hb : (c.name != stem) = true := by simp [hname]
  simp [hb]

/-- Witness for `classdef_method_strips_first_argument` at the S3 inputs. -/
theorem classdef_method_strips_first_argument_witness :
    (methodFromCapture "Widget" false ⟨"resize", ["obj", "n"], [], false, false⟩).args
        = [PArg.mk "n"]
    ∧ widgetClassfolderMembers.lookup "resize"
      = some (.meth ⟨"resize", [⟨"obj"⟩, ⟨"n"⟩], false, false, false⟩) := by
  have h := classdef_method_strips_first_argument "Widget"
    ⟨"resize", ["obj", "n"], [], false, false⟩ "obj" ["n"] (by decide) rfl
  exact ⟨h.1, h.2⟩

/-- **C9 counterexample**.  The claim says that after `addpath` returns
every alias is still unresolved (no discovered file parsed).  But
`addpath`'s registration loop reads `object.path`, which forwards through
`Alias.__getattr__` to `Alias._actual` — materializing the target — so the
single alias registered for `A/util.m` is already resolved when `addpath`
returns. -/
theorem addpath_materializes_during_registration :
    (addpath fsShadow (emptyState []) ["A"]).map
        (fun s => s.objects.map (fun p => (storeGet s.store p).isSome))
      = .ok [true]
    ∧ [true] ≠ [false] :=
  ⟨by decide, by decide⟩

/-- **C9 amended**.  `addpath` registers a fresh unresolved alias per
discovered path, but its registration loop immediately resolves every one
of them (the mapping key is the materialized target's dotted path), so
after `addpath` returns every registered alias is resolved; only a *later*
re-registration resets an alias to unresolved.  Shown on the root with a
plain file, a namespace and a class folder: all six discovered aliases are
resolved. -/
theorem addpath_resolves_every_alias :
    (addpath fsRound (emptyState []) ["root"] false true).map
        (fun s => s.objects.map (fun p => (storeGet s.store p).isSome))
      = .ok [true, true, true, true, true, true] :=
  by decide

/-! # Theorems for claims C7, C8, C10 -/

/-- **C8** (code_bug).  `Object.resolve` is claimed to search the whole
scope chain and raise `NameResolution` only after exhausting it.  In the
code, the guard
`if self.parent is None or not self.parent.is_namespace or not self.parent.is_folder`
is a disjunction of `not is_namespace` and `not is_folder`, which is true
for every possible parent (no object is both a namespace and a folder), so
the recursion into the parent on line 518 is unreachable.  Failing input:
a function `f` whose parent namespace `ns` has a member `g`; the claim says
`f.resolve("g")` returns `g`'s path `"ns.g"` (as `ns.resolve("g")` indeed
does), but `f.resolve("g")` raises `NameResolutionError` without consulting
the parent scope. -/
theorem resolve_raises_without_searching_parent_scope :
    let g : RMember := ⟨false, "ns.g", ""⟩
    let ns : RObj := .mk "ns" Kind.NAMESPACE [("g", g)] none
    let f : RObj := .mk "f" Kind.FUNCTION [] (some ns)
    ns.resolve "g" = .ok "ns.g" ∧
      f.resolve "g" =
        .error (.nameResolution "g could not be resolved in the scope of ns.f") :=
  ⟨rfl, rfl⟩

/-- **C10** (code_bug).  The claim says every enumeration member's kind is
the distinct `enumeration` kind and `is_class` is false for it.  In
`maxx/enums.py` the member `ENUMERATION = "class"` duplicates the value of
`CLASS = "class"`, so Python's `Enum` makes `Kind.ENUMERATION` an alias of
`Kind.CLASS`: an `Enumeration` object's kind *is* `Kind.CLASS` and
`is_class` returns `True` for it. -/
theorem enumeration_kind_is_class_kind :
    Kind.ENUMERATION = Kind.CLASS ∧
      (EnumMemberObj.mk "Red").kind = Kind.CLASS ∧
      (EnumMemberObj.mk "Red").is_class = true :=
  ⟨rfl, rfl, rfl⟩

/-- **C7 counterexample**.  On the claimed input
(`%F One-line summary.` / `%  Detailed.` / `%#codegen`) the extractor
produces `"F One-line summary.\n  Detailed."` — the pragma is stripped, but
`" Detailed."` keeps *two* leading spaces (everything after the `%`), not
one as claimed: the common-leading-whitespace removal strips nothing because
the first line has no indentation. -/
theorem comment_docstring_keeps_two_spaces :
    commentDocstring ["%F One-line summary.", "%  Detailed.", "%#codegen"]
        = .ok "F One-line summary.\n  Detailed."
      ∧ "F One-line summary.\n  Detailed." ≠ "F One-line summary.\n Detailed." :=
  ⟨by decide, by decide⟩

/-- **C7 amended**.  Parsing the comment lines `%F One-line summary.`,
`%  Detailed.` and the pragma line `%#codegen` produces the docstring text
`"F One-line summary.\n  Detailed."`: the pragma line is stripped, each
line loses only its leading `%`, and the common-leading-whitespace removal
removes nothing because the first line starts at column zero. -/
theorem comment_docstring_strips_pragma :
    commentDocstring ["%F One-line summary.", "%  Detailed.", "%#codegen"]
      = .ok "F One-line summary.\n  Detailed." :=
  by decide

end Maxx
